import Mathlib

/-!
Shallow embedding of the Triage Risk Engine of the AI-Healthcare backend
(`backend/routes/triage.py` together with the data model of
`backend/models.py`), and proofs about it.

Modelling conventions:
* Python integers are embedded as `Int`/`Nat`; Python floats produced by the
  scorer are embedded as `ℚ` (every arithmetic operation the scorer performs
  is exact on the values concerned, so `ℚ` is a faithful model of the
  computation).
* SQLAlchemy rows become structures; nullable columns become `Option`;
  the JSON list columns (`symptoms_reported`, `symptom_combination`) become
  `Option (List Nat)` where `none` models SQL NULL, and Python's
  `x or []` idiom becomes `Option.getD` combined with the falsiness of `[]`.
* The database visible to the triage routes becomes an explicit `DB` record;
  `db.query(...).filter(...).first()` becomes `List.find?` and
  `.filter(...).all()` becomes `List.filter`; a commit of a mutated row
  becomes a functional update of the session list.
* `HTTPException` becomes `Except ApiError`; status 403 is `forbidden`,
  404 is `notFound`, and 400 ("Cannot add symptoms to a completed session")
  is `invalidState`.
* The enum member `TriggerAction.ER` is what the design documents call the
  EMERGENCY disposition (its serialized value is the string "ER").
-/

/- Batteries marks the `Rat` field operations `@[irreducible]`; the embedded
scorer computes with exact rationals, so restore reducibility to let
`decide` evaluate it on concrete inputs. -/
set_option allowUnsafeReducibility true
attribute [semireducible] Rat.mul Rat.div Rat.add Rat.sub Rat.neg Rat.inv

namespace Triage

/-- Model of `models.RiskLevel`: the risk tier of a catalog symptom. -/
inductive RiskLevel where
  | low
  | medium
  | high
  | critical
deriving DecidableEq, Repr

/-- Model of `models.TriggerAction`: the three dispositions.  `ER` is the
EMERGENCY disposition. -/
inductive TriggerAction where
  | ER
  | CLINIC
  | HOME
deriving DecidableEq, Repr

/-- Model of `models.UserRole` (only the part the triage routes inspect). -/
inductive UserRole where
  | patient
  | doctor
  | admin
deriving DecidableEq, Repr

/-- Model of `models.User`, restricted to the columns the triage routes read. -/
structure User where
  id : Nat
  role : UserRole
deriving DecidableEq, Repr

/-- Model of `models.Patient`, restricted to the columns the triage routes read. -/
structure Patient where
  id : Nat
  user_id : Nat
deriving DecidableEq, Repr

/-- Model of `models.Symptom`, restricted to the columns used in scoring
(`id`, `severity`, `risk_level`). -/
structure Symptom where
  id : Nat
  severity : Int
  risk_level : RiskLevel
deriving DecidableEq, Repr

/-- Model of `models.RedFlag`, restricted to the columns used in scoring.
`symptom_combination` is a JSON list of symptom ids; `none` models NULL. -/
structure RedFlag where
  id : Nat
  symptom_combination : Option (List Nat)
  trigger_action : TriggerAction
  priority : Int
deriving DecidableEq, Repr

/-- Model of `models.TriageSession`.  Here `status` is the literal string column
("in_progress" / "completed"); timestamps are modelled as `Nat` instants. -/
structure TriageSession where
  id : Nat
  patient_id : Nat
  symptoms_reported : Option (List Nat)
  risk_score : Option ℚ
  triage_result : Option TriggerAction
  status : String
  timestamp : Nat
  completed_at : Option Nat
deriving DecidableEq, Repr

/-- The database state visible to the triage routes. -/
structure DB where
  patients : List Patient
  sessions : List TriageSession
  symptoms : List Symptom
  red_flags : List RedFlag
  next_session_id : Nat
deriving DecidableEq, Repr

/-- Error taxonomy of the routes: `HTTPException` status codes 403, 404
and 400 respectively. -/
inductive ApiError where
  | forbidden
  | notFound
  | invalidState
deriving DecidableEq, Repr

/-! ## The Risk Scorer (`calculate_risk_score`) -/

/-- The dict `risk_weights = {"low": 1, "medium": 2, "high": 3, "critical": 5}`;
the lookup `risk_weights.get(s.risk_level.value, 1)` always hits because
`risk_level` ranges over exactly these four keys. -/
def risk_weights : RiskLevel → ℚ
  | .low => 1
  | .medium => 2
  | .high => 3
  | .critical => 5

/-- Model of `sum(s.severity * risk_weights.get(s.risk_level.value, 1) for s
in symptoms) / len(symptoms)` (integer products summed, then true
division). -/
def weighted_score (symptoms : List Symptom) : ℚ :=
  (symptoms.map (fun s => (s.severity : ℚ) * risk_weights s.risk_level)).sum
    / (symptoms.length : ℚ)

/-- Model of `set(rf.symptom_combination) if rf.symptom_combination else
set()`: both NULL and the (falsy) empty list give the empty set. -/
def rf_symptom_set (rf : RedFlag) : Finset Nat :=
  (rf.symptom_combination.getD []).toFinset

/-- Model of `set(s.id for s in symptoms)`. -/
def reported_set (symptoms : List Symptom) : Finset Nat :=
  (symptoms.map Symptom.id).toFinset

/-- The red-flag matching loop: append `rf` whenever
`rf_symptoms.issubset(symptom_ids)`; catalog order is preserved. -/
def matched_red_flags (symptoms : List Symptom) (red_flags : List RedFlag) :
    List RedFlag :=
  red_flags.filter (fun rf => decide (rf_symptom_set rf ⊆ reported_set symptoms))

/-- Python's two-argument `min(a, b)`: `a` when `a <= b`, else `b`
(agrees with `min` on `ℚ`, see `py_min_eq_min`). -/
def py_min (a b : ℚ) : ℚ :=
  if a ≤ b then a else b

/-- Python's `max(xs, key=lambda x: x.priority)` on a non-empty list given as
head and tail: scan left to right, replacing the current best only on a
strictly greater key, so the first maximal element wins ties. -/
def max_by_priority (best : RedFlag) : List RedFlag → RedFlag
  | [] => best
  | rf :: rest =>
      max_by_priority (if best.priority < rf.priority then rf else best) rest

/-- Model of `calculate_risk_score(symptoms, red_flags)` from
`backend/routes/triage.py`.  (The source also computes an `avg_severity`
local that is never used afterwards; it is omitted here.)  Returns
`(risk_score, triage_result, matched_red_flags)`. -/
def calculate_risk_score (symptoms : List Symptom) (red_flags : List RedFlag) :
    ℚ × TriggerAction × List RedFlag :=
  if symptoms.isEmpty then
    (0, .HOME, [])
  else
    let risk_score : ℚ := py_min 100 ((weighted_score symptoms / 50) * 100)
    let matched := matched_red_flags symptoms red_flags
    let triage_result :=
      match matched with
      | m :: rest => (max_by_priority m rest).trigger_action
      | [] =>
          if 70 ≤ risk_score then TriggerAction.ER
          else if 40 ≤ risk_score then TriggerAction.CLINIC
          else TriggerAction.HOME
    (risk_score, triage_result, matched)

/-! ## The Session Manager (route handlers) -/

/-- The role check and patient-profile lookup that every triage handler
performs first: 403 unless `current_user.role == UserRole.PATIENT`, then
`db.query(Patient).filter(Patient.user_id == current_user.id).first()`,
404 when absent. -/
def resolve_patient (db : DB) (current_user : User) : Except ApiError Patient :=
  if current_user.role ≠ UserRole.patient then
    .error .forbidden
  else
    match db.patients.find? (fun p => p.user_id == current_user.id) with
    | none => .error .notFound
    | some p => .ok p

/-- Committing a mutated session row: the row with the same primary key is
replaced, every other row is untouched. -/
def commit_session (db : DB) (s : TriageSession) : DB :=
  { db with
    sessions := db.sessions.map (fun t => if t.id == s.id then s else t) }

/-- Model of `POST /triage/start` (`start_triage_session`): return the existing
`in_progress` session of the patient if there is one, otherwise insert a
fresh one (empty symptom list, status "in_progress", timestamped now). -/
def start_triage_session (db : DB) (current_user : User) (now : Nat) :
    Except ApiError (DB × TriageSession) :=
  match resolve_patient db current_user with
  | .error e => .error e
  | .ok patient =>
    match db.sessions.find?
        (fun s => s.patient_id == patient.id && s.status == "in_progress") with
    | some active_session => .ok (db, active_session)
    | none =>
        let new_session : TriageSession :=
          { id := db.next_session_id
            patient_id := patient.id
            symptoms_reported := some []
            risk_score := none
            triage_result := none
            status := "in_progress"
            timestamp := now
            completed_at := none }
        .ok ({ db with
                sessions := db.sessions ++ [new_session]
                next_session_id := db.next_session_id + 1 },
             new_session)

/-- Model of `POST /triage/add-symptom` (`add_symptom_to_session`): ownership check,
then the status guard (`400` unless "in_progress"), then catalog lookup of
the symptom, then append the id unless already present. -/
def add_symptom_to_session (db : DB) (current_user : User)
    (session_id symptom_id : Nat) : Except ApiError (DB × TriageSession) :=
  match resolve_patient db current_user with
  | .error e => .error e
  | .ok patient =>
    match db.sessions.find?
        (fun s => s.id == session_id && s.patient_id == patient.id) with
    | none => .error .notFound
    | some session =>
      if session.status ≠ "in_progress" then
        .error .invalidState
      else
        match db.symptoms.find? (fun s => s.id == symptom_id) with
        | none => .error .notFound
        | some _ =>
            let current_symptoms := session.symptoms_reported.getD []
            if symptom_id ∈ current_symptoms then
              .ok (db, session)
            else
              let session' :=
                { session with
                  symptoms_reported := some (current_symptoms ++ [symptom_id]) }
              .ok (commit_session db session', session')

/-- Model of the `GET /triage/result` endpoint (`get_triage_result`): ownership check,
resolve the session's reported ids against the symptom catalog, score, and
unconditionally stamp the session completed (there is no status guard in the
source).  Returns the updated database, the scorer's triple and the updated
session row. -/
def get_triage_result (db : DB) (current_user : User) (session_id : Nat)
    (now : Nat) :
    Except ApiError (DB × (ℚ × TriggerAction × List RedFlag) × TriageSession) :=
  match resolve_patient db current_user with
  | .error e => .error e
  | .ok patient =>
    match db.sessions.find?
        (fun s => s.id == session_id && s.patient_id == patient.id) with
    | none => .error .notFound
    | some session =>
        let symptom_ids := session.symptoms_reported.getD []
        let symptoms := db.symptoms.filter (fun s => s.id ∈ symptom_ids)
        let scored := calculate_risk_score symptoms db.red_flags
        let session' :=
          { session with
            risk_score := some scored.1
            triage_result := some scored.2.1
            status := "completed"
            completed_at := some now }
        .ok (commit_session db session', scored, session')

/-! ## Concrete catalog and database instances, used to instantiate the
theorems below on closed inputs. -/

/-- A critical catalog symptom with severity 8 (weighted product 40). -/
def catalogA : Symptom := ⟨1, 8, RiskLevel.critical⟩

/-- A low catalog symptom with severity 10 (weighted product 10). -/
def catalogB : Symptom := ⟨2, 10, RiskLevel.low⟩

/-- A critical catalog symptom with severity 10 (weighted product 50). -/
def catalogC : Symptom := ⟨3, 10, RiskLevel.critical⟩

/-- A user in the patient role. -/
def exUser : User := ⟨10, UserRole.patient⟩

/-- The patient profile of `exUser`. -/
def exPatient : Patient := ⟨1, 10⟩

/-- An in-progress session of `exPatient` that has reported symptom 1. -/
def exActiveSession : TriageSession :=
  ⟨1, 1, some [1], none, none, "in_progress", 0, none⟩

/-- A completed session of `exPatient` with a stored result. -/
def exDoneSession : TriageSession :=
  ⟨2, 1, some [1], some 80, some TriggerAction.ER, "completed", 0, some 5⟩

/-- A database holding the active session. -/
def exDB : DB := ⟨[exPatient], [exActiveSession], [catalogA, catalogB], [], 3⟩

/-- State of `exActiveSession` after symptom 2 has been appended. -/
def exSessionAfterAdd : TriageSession :=
  ⟨1, 1, some [1, 2], none, none, "in_progress", 0, none⟩

/-- State of `exDB` after `add_symptom_to_session exDB exUser 1 2`. -/
def exDBAfterAdd : DB :=
  ⟨[exPatient], [exSessionAfterAdd], [catalogA, catalogB], [], 3⟩

/-- A red-flag rule with an empty `symptom_combination` (the edge case the
catalog is expected never to contain). -/
def rfEmptyCombo : RedFlag := ⟨5, some [], TriggerAction.ER, 9⟩

/-- A rule on symptom 1 with priority 1. -/
def rfLowPrio : RedFlag := ⟨6, some [1], TriggerAction.CLINIC, 1⟩

/-- A rule on symptom 1 with priority 3. -/
def rfHighPrio : RedFlag := ⟨7, some [1], TriggerAction.ER, 3⟩

/-- The catalog row with id 1 after an administrator edited it (severity
dropped from 8/critical to 2/low), used to exercise re-finalization. -/
def catalogA2 : Symptom := ⟨1, 2, RiskLevel.low⟩

/-- A database holding only the completed session `exDoneSession`, in which
the catalog entry for symptom 1 has changed since the session completed. -/
def exStaleDB : DB := ⟨[exPatient], [exDoneSession], [catalogA2], [], 3⟩

/-- A database holding only the completed session `exDoneSession` with the
original catalog. -/
def exDoneDB : DB := ⟨[exPatient], [exDoneSession], [catalogA, catalogB], [], 3⟩

/-- A database with no sessions at all. -/
def exDB0 : DB := ⟨[exPatient], [], [catalogA, catalogB], [], 1⟩

/-- The session `start_triage_session exDB0 exUser 7` creates. -/
def exStartedSession : TriageSession :=
  ⟨1, 1, some [], none, none, "in_progress", 7, none⟩

/-- State of `exDB0` after that start call. -/
def exDBStarted : DB := ⟨[exPatient], [exStartedSession], [catalogA, catalogB], [], 2⟩

/-- An in-progress session of `exPatient` with an empty symptom list. -/
def exEmptyActiveSession : TriageSession :=
  ⟨3, 1, some [], none, none, "in_progress", 0, none⟩

/-- A database holding `exEmptyActiveSession` together with the
empty-combination red flag. -/
def exDBEmpty : DB := ⟨[exPatient], [exEmptyActiveSession], [catalogA], [rfEmptyCombo], 4⟩

/-- The database state after an `add-symptom` request: a raised
`HTTPException` aborts the handler before any commit, so on an error the
state is the one the handler started from. -/
def add_symptom_post (db : DB) (current_user : User)
    (session_id symptom_id : Nat) : DB :=
  match add_symptom_to_session db current_user session_id symptom_id with
  | .error _ => db
  | .ok (db', _) => db'

deriving instance DecidableEq for Except

/-- The sessions of a given patient whose status is "in_progress". -/
def in_progress_sessions_for (db : DB) (pid : Nat) : List TriageSession :=
  db.sessions.filter (fun s => s.patient_id == pid && s.status == "in_progress")

/-- The single-active-session invariant: every patient has at most one
session with status "in_progress". -/
def at_most_one_active (db : DB) : Prop :=
  ∀ pid : Nat, (in_progress_sessions_for db pid).length ≤ 1

/-- What `exDoneSession` becomes when the result endpoint is called again
at instant 9 against the edited catalog `exStaleDB`. -/
def exRefinalizedSession : TriageSession :=
  ⟨2, 1, some [1], some 4, some TriggerAction.HOME, "completed", 0, some 9⟩

/-- What `exEmptyActiveSession` becomes when finalized at instant 11. -/
def exEmptyDoneSession : TriageSession :=
  ⟨3, 1, some [], some 0, some TriggerAction.HOME, "completed", 0, some 11⟩

end Triage

namespace Triage

/-! ## Basic lemmas about the scorer -/

/-- The function `py_min` agrees with the lattice `min` on `ℚ`. -/
theorem py_min_eq_min (a b : ℚ) : py_min a b = min a b :=
  (min_def a b).symm

/-- Unfolding of `calculate_risk_score` on a non-empty symptom list. -/
theorem calculate_risk_score_of_ne_nil (symptoms : List Symptom)
    (red_flags : List RedFlag) (h : symptoms ≠ []) :
    calculate_risk_score symptoms red_flags =
      (py_min 100 (weighted_score symptoms / 50 * 100),
       (match matched_red_flags symptoms red_flags with
        | m :: rest => (max_by_priority m rest).trigger_action
        | [] =>
            if 70 ≤ py_min 100 (weighted_score symptoms / 50 * 100) then
              TriggerAction.ER
            else if 40 ≤ py_min 100 (weighted_score symptoms / 50 * 100) then
              TriggerAction.CLINIC
            else TriggerAction.HOME),
       matched_red_flags symptoms red_flags) := by
  cases symptoms with
  | nil => exact absurd rfl h
  | cons a l => rfl

end Triage


namespace Triage

/-- C7: scoring an empty symptom list returns exactly `(0.0, HOME, [])`
whatever the red-flag catalog is, and this is the algorithm's only
short-circuit: on any non-empty list the score and the full red-flag
matching are always computed. -/
theorem C7_empty_short_circuit (red_flags : List RedFlag) :
    calculate_risk_score [] red_flags = (0, TriggerAction.HOME, []) ∧
    ∀ symptoms : List Symptom, symptoms ≠ [] →
      (calculate_risk_score symptoms red_flags).1 =
        py_min 100 (weighted_score symptoms / 50 * 100) ∧
      (calculate_risk_score symptoms red_flags).2.2 =
        matched_red_flags symptoms red_flags := by
  refine ⟨rfl, fun symptoms h => ?_⟩
  rw [calculate_risk_score_of_ne_nil symptoms red_flags h]
  exact ⟨rfl, rfl⟩

/-- Closed instance of `C7_empty_short_circuit`. -/
theorem C7_empty_short_circuit_witness :
    calculate_risk_score [] [] = (0, TriggerAction.HOME, []) ∧
    ([catalogA] : List Symptom) ≠ [] ∧
    (calculate_risk_score [catalogA] []).1 =
      py_min 100 (weighted_score [catalogA] / 50 * 100) ∧
    (calculate_risk_score [catalogA] []).2.2 =
      matched_red_flags [catalogA] [] :=
  ⟨(C7_empty_short_circuit []).1, by decide,
   (C7_empty_short_circuit []).2 [catalogA] (by decide)⟩

end Triage

namespace Triage

/-- C1: on a non-empty symptom list the returned risk score is exactly
`min(100, ((sum of severity times tier weight) / count) / 50 * 100)` with
tier weights low=1, medium=2, high=3, critical=5; in particular a single
severity-8 critical symptom scores 80 and, when no red-flag rule matches,
the action is the EMERGENCY disposition `TriggerAction.ER`. -/
theorem C1_risk_score_formula (symptoms : List Symptom)
    (red_flags : List RedFlag) (h : symptoms ≠ []) :
    (calculate_risk_score symptoms red_flags).1 =
      min 100
        (((symptoms.map
            (fun s => (s.severity : ℚ) * risk_weights s.risk_level)).sum
          / (symptoms.length : ℚ)) / 50 * 100) ∧
    ∀ i : Nat,
      matched_red_flags [⟨i, 8, RiskLevel.critical⟩] red_flags = [] →
      calculate_risk_score [⟨i, 8, RiskLevel.critical⟩] red_flags =
        (80, TriggerAction.ER, []) := by
  constructor
  · rw [calculate_risk_score_of_ne_nil symptoms red_flags h, py_min_eq_min]
    rfl
  · intro i hm
    rw [calculate_risk_score_of_ne_nil _ red_flags (by simp), hm]
    have hw : weighted_score [⟨i, 8, RiskLevel.critical⟩] = 40 := by
      simp [weighted_score, risk_weights]
      norm_num
    rw [hw]
    norm_num [py_min]

/-- Closed instance of `C1_risk_score_formula`. -/
theorem C1_risk_score_formula_witness :
    ([catalogA, catalogB] : List Symptom) ≠ [] ∧
    (calculate_risk_score [catalogA, catalogB] []).1 =
      min 100
        ((([catalogA, catalogB].map
            (fun s => (s.severity : ℚ) * risk_weights s.risk_level)).sum
          / (([catalogA, catalogB] : List Symptom).length : ℚ)) / 50 * 100) ∧
    matched_red_flags [⟨7, 8, RiskLevel.critical⟩] [] = [] ∧
    calculate_risk_score [⟨7, 8, RiskLevel.critical⟩] [] =
      (80, TriggerAction.ER, []) :=
  ⟨by decide,
   (C1_risk_score_formula [catalogA, catalogB] [] (by decide)).1,
   by decide,
   (C1_risk_score_formula [catalogA, catalogB] [] (by decide)).2 7 (by decide)⟩

/-- With no matched red flag the action is the pure threshold decision on
the risk score. -/
theorem triage_result_of_no_match (symptoms : List Symptom)
    (red_flags : List RedFlag) (h : symptoms ≠ [])
    (hm : matched_red_flags symptoms red_flags = []) :
    (calculate_risk_score symptoms red_flags).2.1 =
      if 70 ≤ (calculate_risk_score symptoms red_flags).1 then TriggerAction.ER
      else if 40 ≤ (calculate_risk_score symptoms red_flags).1 then
        TriggerAction.CLINIC
      else TriggerAction.HOME := by
  rw [calculate_risk_score_of_ne_nil symptoms red_flags h, hm]

/-- C6: with no matched red flag, riskScore ≥ 70 selects EMERGENCY (`ER`),
40 ≤ riskScore < 70 selects CLINIC, and riskScore < 40 selects HOME; both
boundaries are inclusive. -/
theorem C6_threshold_boundaries (symptoms : List Symptom)
    (red_flags : List RedFlag) (h : symptoms ≠ [])
    (hm : matched_red_flags symptoms red_flags = []) :
    ((70:ℚ) ≤ (calculate_risk_score symptoms red_flags).1 →
      (calculate_risk_score symptoms red_flags).2.1 = TriggerAction.ER) ∧
    ((40:ℚ) ≤ (calculate_risk_score symptoms red_flags).1 →
      (calculate_risk_score symptoms red_flags).1 < 70 →
      (calculate_risk_score symptoms red_flags).2.1 = TriggerAction.CLINIC) ∧
    ((calculate_risk_score symptoms red_flags).1 < 40 →
      (calculate_risk_score symptoms red_flags).2.1 = TriggerAction.HOME) := by
  have key := triage_result_of_no_match symptoms red_flags h hm
  refine ⟨fun h70 => ?_, fun h40 hlt => ?_, fun hlt => ?_⟩
  · rw [key, if_pos h70]
  · rw [key, if_neg (not_le.mpr hlt), if_pos h40]
  · rw [key, if_neg (not_le.mpr (lt_trans hlt (by norm_num))),
      if_neg (not_le.mpr hlt)]

/-- Closed instance of `C6_threshold_boundaries` (score 80 → `ER`). -/
theorem C6_threshold_boundaries_witness :
    ([catalogA] : List Symptom) ≠ [] ∧
    matched_red_flags [catalogA] [] = [] ∧
    (70:ℚ) ≤ (calculate_risk_score [catalogA] []).1 ∧
    (calculate_risk_score [catalogA] []).2.1 = TriggerAction.ER :=
  ⟨by decide, by decide, by decide,
   (C6_threshold_boundaries [catalogA] [] (by decide) (by decide)).1
     (by decide)⟩

/-- C5: on a non-empty symptom list, a catalog rule is in the returned
matched list precisely when its symptom combination (NULL or the empty list
giving the empty set) is a non-strict subset of the reported identifier set;
a rule with an empty combination therefore always matches. -/
theorem C5_subset_matching (symptoms : List Symptom)
    (red_flags : List RedFlag) (h : symptoms ≠ []) (rf : RedFlag)
    (hrf : rf ∈ red_flags) :
    (rf ∈ (calculate_risk_score symptoms red_flags).2.2 ↔
      rf_symptom_set rf ⊆ reported_set symptoms) ∧
    ((rf.symptom_combination = none ∨ rf.symptom_combination = some []) →
      rf ∈ (calculate_risk_score symptoms red_flags).2.2) := by
  have h22 : (calculate_risk_score symptoms red_flags).2.2 =
      matched_red_flags symptoms red_flags := by
    rw [calculate_risk_score_of_ne_nil symptoms red_flags h]
  have hmem : rf ∈ matched_red_flags symptoms red_flags ↔
      rf_symptom_set rf ⊆ reported_set symptoms := by
    unfold matched_red_flags
    rw [List.mem_filter]
    simp [hrf]
  refine ⟨by rw [h22]; exact hmem, fun hc => ?_⟩
  rw [h22, hmem]
  have hempty : rf_symptom_set rf = ∅ := by
    rcases hc with hc | hc <;> simp [rf_symptom_set, hc]
  simp [hempty]

/-- Closed instance of `C5_subset_matching` at the empty-combination rule. -/
theorem C5_subset_matching_witness :
    ([catalogA] : List Symptom) ≠ [] ∧
    rfEmptyCombo ∈ [rfEmptyCombo, rfLowPrio] ∧
    (rfEmptyCombo ∈ (calculate_risk_score [catalogA] [rfEmptyCombo, rfLowPrio]).2.2 ↔
      rf_symptom_set rfEmptyCombo ⊆ reported_set [catalogA]) ∧
    rfEmptyCombo ∈ (calculate_risk_score [catalogA] [rfEmptyCombo, rfLowPrio]).2.2 :=
  ⟨by decide, by decide,
   (C5_subset_matching [catalogA] [rfEmptyCombo, rfLowPrio] (by decide)
      rfEmptyCombo (by decide)).1,
   (C5_subset_matching [catalogA] [rfEmptyCombo, rfLowPrio] (by decide)
      rfEmptyCombo (by decide)).2 (Or.inr rfl)⟩

end Triage

namespace Triage

/-- The result of `max_by_priority best l` dominates the seed, and `best :: l` splits
around it so that everything before it has strictly smaller priority and
everything after it has priority at most its own: it is the first maximal
element of `best :: l` in order. -/
theorem max_by_priority_spec (l : List RedFlag) (best : RedFlag) :
    best.priority ≤ (max_by_priority best l).priority ∧
    ∃ l1 l2,
      best :: l = l1 ++ (max_by_priority best l) :: l2 ∧
      (∀ r ∈ l1, r.priority < (max_by_priority best l).priority) ∧
      (∀ r ∈ l2, r.priority ≤ (max_by_priority best l).priority) := by
  induction l generalizing best with
  | nil =>
      exact ⟨le_refl _, [], [], rfl, by simp, by simp⟩
  | cons rf rest ih =>
      by_cases hbr : best.priority < rf.priority
      · have hw : max_by_priority best (rf :: rest) = max_by_priority rf rest := by
          simp [max_by_priority, hbr]
        obtain ⟨hle, l1, l2, hdec, h1, h2⟩ := ih rf
        rw [hw]
        refine ⟨le_of_lt (lt_of_lt_of_le hbr hle), best :: l1, l2, ?_, ?_, h2⟩
        · rw [List.cons_append, ← hdec]
        · intro r hr
          rcases List.mem_cons.mp hr with rfl | hr
          · exact lt_of_lt_of_le hbr hle
          · exact h1 r hr
      · have hw : max_by_priority best (rf :: rest) = max_by_priority best rest := by
          simp [max_by_priority, hbr]
        have hrb : rf.priority ≤ best.priority := le_of_not_lt hbr
        obtain ⟨hle, l1, l2, hdec, h1, h2⟩ := ih best
        rw [hw]
        cases l1 with
        | nil =>
            simp only [List.nil_append] at hdec
            have hbw : best = max_by_priority best rest := (List.cons.injEq _ _ _ _ ▸ hdec).1
            have hl2 : rest = l2 := (List.cons.injEq _ _ _ _ ▸ hdec).2
            refine ⟨hle, [], rf :: rest, ?_, by simp, ?_⟩
            · rw [List.nil_append, ← hbw]
            · intro r hr
              rcases List.mem_cons.mp hr with rfl | hr
              · exact le_trans hrb (hbw ▸ le_refl _)
              · exact h2 r (hl2 ▸ hr)
        | cons x l1' =>
            simp only [List.cons_append] at hdec
            have hbx : best = x := (List.cons.injEq _ _ _ _ ▸ hdec).1
            have hrest : rest = l1' ++ max_by_priority best rest :: l2 :=
              (List.cons.injEq _ _ _ _ ▸ hdec).2
            have hbw : best.priority < (max_by_priority best rest).priority :=
              h1 best (hbx ▸ List.mem_cons_self x l1')
            refine ⟨hle, best :: rf :: l1', l2, ?_, ?_, h2⟩
            · rw [List.cons_append, List.cons_append, ← hrest]
            · intro r hr
              rcases List.mem_cons.mp hr with rfl | hr
              · exact hbw
              · rcases List.mem_cons.mp hr with rfl | hr
                · exact lt_of_le_of_lt hrb hbw
                · exact h1 r (hbx ▸ List.mem_cons_of_mem x hr)

/-- C4: when at least one red-flag rule matches, the returned action is the
`trigger_action` of the matched rule with the highest priority, ties being
broken in favor of the first such rule in catalog order (the matched list
preserves catalog order, everything before the winner in it has strictly
smaller priority, and everything after has at most its priority). -/
theorem C4_highest_priority_wins (symptoms : List Symptom)
    (red_flags : List RedFlag) (h : symptoms ≠ [])
    (hm : matched_red_flags symptoms red_flags ≠ []) :
    ∃ w l1 l2,
      (calculate_risk_score symptoms red_flags).2.1 = w.trigger_action ∧
      matched_red_flags symptoms red_flags = l1 ++ w :: l2 ∧
      (∀ r ∈ l1, r.priority < w.priority) ∧
      (∀ r ∈ l2, r.priority ≤ w.priority) := by
  rw [calculate_risk_score_of_ne_nil symptoms red_flags h]
  cases hml : matched_red_flags symptoms red_flags with
  | nil => exact absurd hml hm
  | cons m rest =>
      obtain ⟨hle, l1, l2, hdec, h1, h2⟩ := max_by_priority_spec rest m
      exact ⟨max_by_priority m rest, l1, l2, rfl, hdec, h1, h2⟩

/-- Closed instance of `C4_highest_priority_wins`: rules of priority 1 and
3 both match, and the priority-3 rule's action wins in either catalog
order. -/
theorem C4_highest_priority_wins_witness :
    ([catalogA] : List Symptom) ≠ [] ∧
    matched_red_flags [catalogA] [rfLowPrio, rfHighPrio] ≠ [] ∧
    (calculate_risk_score [catalogA] [rfLowPrio, rfHighPrio]).2.1 =
      TriggerAction.ER ∧
    (calculate_risk_score [catalogA] [rfHighPrio, rfLowPrio]).2.1 =
      TriggerAction.ER ∧
    ∃ w l1 l2,
      (calculate_risk_score [catalogA] [rfLowPrio, rfHighPrio]).2.1 =
        w.trigger_action ∧
      matched_red_flags [catalogA] [rfLowPrio, rfHighPrio] = l1 ++ w :: l2 ∧
      (∀ r ∈ l1, r.priority < w.priority) ∧
      (∀ r ∈ l2, r.priority ≤ w.priority) :=
  ⟨by decide, by decide, by decide, by decide,
   C4_highest_priority_wins [catalogA] [rfLowPrio, rfHighPrio]
     (by decide) (by decide)⟩

end Triage

namespace Triage

/-- Deduplication does not change the reported identifier set. -/
theorem reported_set_dedup (symptoms : List Symptom) :
    reported_set symptoms.dedup = reported_set symptoms := by
  ext x
  simp [reported_set, List.mem_dedup]

/-- C2 counterexample: the scorer fed a list with a duplicated symptom does
NOT return the same output as on the deduplicated list — the duplicate
shifts the weighted average (here across the 70 threshold, flipping the
action from CLINIC to ER), even though the matched red-flag list is the
same. -/
theorem C2_duplicates_counterexample :
    ([catalogC, catalogC, catalogB] : List Symptom).dedup =
      [catalogC, catalogB] ∧
    calculate_risk_score [catalogC, catalogC, catalogB] [] ≠
      calculate_risk_score [catalogC, catalogB] [] ∧
    (calculate_risk_score [catalogC, catalogC, catalogB] []).2.1 =
      TriggerAction.ER ∧
    (calculate_risk_score [catalogC, catalogB] []).2.1 =
      TriggerAction.CLINIC :=
  ⟨by decide, by decide, by decide, by decide⟩

/-- C2 amended: only the red-flag matching is invariant under duplicate
symptom entries (it depends on the reported set alone); the risk score is
not.  Set semantics is instead guaranteed by the caller:
`add_symptom_to_session` appends an id only when it is not already present,
so sessions never accumulate duplicate identifiers. -/
theorem C2_amended_set_semantics :
    (∀ (symptoms : List Symptom) (red_flags : List RedFlag),
      matched_red_flags symptoms.dedup red_flags =
        matched_red_flags symptoms red_flags) ∧
    (∀ (db : DB) (u : User) (sid xid : Nat) (db' : DB) (s' : TriageSession),
      add_symptom_to_session db u sid xid = .ok (db', s') →
      (∀ s ∈ db.sessions, (s.symptoms_reported.getD []).Nodup) →
      ∀ s ∈ db'.sessions, (s.symptoms_reported.getD []).Nodup) := by
  constructor
  · intro symptoms red_flags
    unfold matched_red_flags
    rw [reported_set_dedup]
  · intro db u sid xid db' s' hok hinv s hs
    unfold add_symptom_to_session at hok
    cases hres : resolve_patient db u with
    | error e => rw [hres] at hok; simp at hok
    | ok patient =>
      simp only [hres] at hok
      cases hfind : db.sessions.find?
          (fun t => t.id == sid && t.patient_id == patient.id) with
      | none => simp only [hfind] at hok; exact absurd hok (by simp)
      | some session =>
        simp only [hfind] at hok
        by_cases hst : session.status ≠ "in_progress"
        · rw [if_pos hst] at hok; simp at hok
        · rw [if_neg hst] at hok
          cases hsym : db.symptoms.find? (fun t => t.id == xid) with
          | none => simp only [hsym] at hok; exact absurd hok (by simp)
          | some symptom =>
            simp only [hsym] at hok
            by_cases hmem : xid ∈ session.symptoms_reported.getD []
            · rw [if_pos hmem] at hok
              simp only [Except.ok.injEq, Prod.mk.injEq] at hok
              obtain ⟨rfl, rfl⟩ := hok
              exact hinv s hs
            · rw [if_neg hmem] at hok
              simp only [Except.ok.injEq, Prod.mk.injEq] at hok
              obtain ⟨rfl, rfl⟩ := hok
              simp only [commit_session, List.mem_map] at hs
              obtain ⟨t, ht, hts⟩ := hs
              by_cases hid : t.id ==
                  ({ session with
                      symptoms_reported :=
                        some (session.symptoms_reported.getD [] ++ [xid]) }
                    : TriageSession).id
              · rw [if_pos hid] at hts
                subst hts
                simp only [Option.getD_some]
                rw [List.nodup_append]
                refine ⟨hinv session (List.mem_of_find?_eq_some hfind),
                        List.nodup_singleton xid, ?_⟩
                intro a ha hax
                rcases List.mem_singleton.mp hax with rfl
                exact hmem ha
              · rw [if_neg hid] at hts
                subst hts
                exact hinv t ht

/-- Closed instance of `C2_amended_set_semantics`. -/
theorem C2_amended_set_semantics_witness :
    matched_red_flags ([catalogC, catalogC, catalogB] : List Symptom).dedup
        [rfEmptyCombo] =
      matched_red_flags [catalogC, catalogC, catalogB] [rfEmptyCombo] ∧
    add_symptom_to_session exDB exUser 1 2 = .ok (exDBAfterAdd, exSessionAfterAdd) ∧
    (∀ s ∈ exDB.sessions, (s.symptoms_reported.getD []).Nodup) ∧
    ∀ s ∈ exDBAfterAdd.sessions, (s.symptoms_reported.getD []).Nodup :=
  ⟨C2_amended_set_semantics.1 [catalogC, catalogC, catalogB] [rfEmptyCombo],
   by decide, by decide,
   C2_amended_set_semantics.2 exDB exUser 1 2 exDBAfterAdd exSessionAfterAdd
     (by decide) (by decide)⟩

end Triage

namespace Triage

/-- C8: an `add-symptom` call against an owned session whose status is not
"in_progress" fails with InvalidState (HTTP 400), and the database — in
particular the session's reported-symptom set — is left unchanged. -/
theorem C8_add_symptom_invalid_state (db : DB) (u : User) (patient : Patient)
    (session_id symptom_id : Nat) (s : TriageSession)
    (hres : resolve_patient db u = .ok patient)
    (hs : db.sessions.find?
        (fun t => t.id == session_id && t.patient_id == patient.id) = some s)
    (hst : s.status ≠ "in_progress") :
    add_symptom_to_session db u session_id symptom_id =
      .error .invalidState ∧
    add_symptom_post db u session_id symptom_id = db := by
  have herr : add_symptom_to_session db u session_id symptom_id =
      .error .invalidState := by
    unfold add_symptom_to_session
    simp only [hres, hs]
    rw [if_pos hst]
  refine ⟨herr, ?_⟩
  unfold add_symptom_post
  rw [herr]

/-- Closed instance of `C8_add_symptom_invalid_state` at a completed
session. -/
theorem C8_add_symptom_invalid_state_witness :
    resolve_patient exDoneDB exUser = .ok exPatient ∧
    exDoneDB.sessions.find?
        (fun t => t.id == 2 && t.patient_id == exPatient.id) =
      some exDoneSession ∧
    exDoneSession.status ≠ "in_progress" ∧
    add_symptom_to_session exDoneDB exUser 2 2 = .error .invalidState ∧
    add_symptom_post exDoneDB exUser 2 2 = exDoneDB :=
  ⟨by decide, by decide, by decide,
   (C8_add_symptom_invalid_state exDoneDB exUser exPatient 2 2 exDoneSession
      (by decide) (by decide) (by decide)).1,
   (C8_add_symptom_invalid_state exDoneDB exUser exPatient 2 2 exDoneSession
      (by decide) (by decide) (by decide)).2⟩

/-- C3 (code bug): the result endpoint has no status guard — calling it
against the already completed session `exDoneSession` neither fails with
InvalidState nor replays the stored result: it recomputes the score from
the current catalog (which has changed since completion) and overwrites
`risk_score` (80 → 4), `triage_result` (ER → HOME) and `completed_at`
(5 → 9). -/
theorem C3_refinalize_recomputes :
    exDoneSession.status = "completed" ∧
    exStaleDB.sessions = [exDoneSession] ∧
    get_triage_result exStaleDB exUser 2 9 =
      .ok (⟨[exPatient], [exRefinalizedSession], [catalogA2], [], 3⟩,
           (4, TriggerAction.HOME, []),
           exRefinalizedSession) ∧
    exRefinalizedSession.risk_score ≠ exDoneSession.risk_score ∧
    exRefinalizedSession.triage_result ≠ exDoneSession.triage_result ∧
    exRefinalizedSession.completed_at ≠ exDoneSession.completed_at :=
  ⟨rfl, rfl, by decide, by decide, by decide, by decide⟩

/-- C10: finalizing an owned in-progress session whose reported list is
NULL or empty succeeds with risk score 0, action HOME and no triggered red
flags, whatever the catalog holds — the empty-symptom short-circuit runs
before red-flag matching, so even an empty-combination rule does not
fire. -/
theorem C10_finalize_empty_session (db : DB) (u : User) (patient : Patient)
    (session_id now : Nat) (s : TriageSession)
    (hres : resolve_patient db u = .ok patient)
    (hs : db.sessions.find?
        (fun t => t.id == session_id && t.patient_id == patient.id) = some s)
    (hst : s.status = "in_progress")
    (hempty : s.symptoms_reported = none ∨ s.symptoms_reported = some []) :
    get_triage_result db u session_id now =
      .ok (commit_session db
             { s with risk_score := some 0,
                      triage_result := some TriggerAction.HOME,
                      status := "completed", completed_at := some now },
           (0, TriggerAction.HOME, []),
           { s with risk_score := some 0,
                    triage_result := some TriggerAction.HOME,
                    status := "completed", completed_at := some now }) := by
  have hids : s.symptoms_reported.getD [] = [] := by
    rcases hempty with h | h <;> simp [h]
  unfold get_triage_result
  simp only [hres, hs, hids]
  have hfil : db.symptoms.filter (fun t => decide (t.id ∈ ([] : List Nat))) = [] := by
    simp
  rw [hfil]
  rfl

/-- Closed instance of `C10_finalize_empty_session`, in a database whose
catalog contains the empty-combination rule `rfEmptyCombo`. -/
theorem C10_finalize_empty_session_witness :
    resolve_patient exDBEmpty exUser = .ok exPatient ∧
    exDBEmpty.sessions.find?
        (fun t => t.id == 3 && t.patient_id == exPatient.id) =
      some exEmptyActiveSession ∧
    exEmptyActiveSession.status = "in_progress" ∧
    exEmptyActiveSession.symptoms_reported = some [] ∧
    rfEmptyCombo ∈ exDBEmpty.red_flags ∧
    get_triage_result exDBEmpty exUser 3 11 =
      .ok (commit_session exDBEmpty exEmptyDoneSession,
           (0, TriggerAction.HOME, []),
           exEmptyDoneSession) :=
  ⟨by decide, by decide, rfl, rfl, by decide,
   C10_finalize_empty_session exDBEmpty exUser exPatient 3 11
     exEmptyActiveSession (by decide) (by decide) rfl (Or.inr rfl)⟩

end Triage

namespace Triage

/-- Lemma: `find?` skips a prefix in which nothing satisfies the predicate. -/
theorem find?_append_none {α : Type} {p : α → Bool} {l1 l2 : List α}
    (h : l1.find? p = none) : (l1 ++ l2).find? p = l2.find? p := by
  rw [List.find?_append, h, Option.none_or]

/-- C9: starting a session preserves the at-most-one-active-session
invariant; a second start with no finalize in between returns exactly the
same database and session (same identifier, no new record); and when an
in-progress session already existed, the first start already returned it
with the database unchanged. -/
theorem C9_start_session_idempotent (db : DB) (u : User) (t1 t2 : Nat)
    (hinv : at_most_one_active db) (db1 : DB) (s1 : TriageSession)
    (hstart : start_triage_session db u t1 = .ok (db1, s1)) :
    at_most_one_active db1 ∧
    start_triage_session db1 u t2 = .ok (db1, s1) ∧
    (∀ patient active, resolve_patient db u = .ok patient →
      db.sessions.find?
          (fun s => s.patient_id == patient.id && s.status == "in_progress") =
        some active →
      db1 = db ∧ s1 = active) := by
  unfold start_triage_session at hstart
  cases hres : resolve_patient db u with
  | error e => rw [hres] at hstart; simp at hstart
  | ok patient =>
    simp only [hres] at hstart
    cases hfind : db.sessions.find?
        (fun s => s.patient_id == patient.id && s.status == "in_progress") with
    | some active =>
        simp only [hfind, Except.ok.injEq, Prod.mk.injEq] at hstart
        obtain ⟨rfl, rfl⟩ := hstart
        refine ⟨hinv, ?_, ?_⟩
        · unfold start_triage_session
          simp only [hres, hfind]
        · intro patient' active' hres' hfind'
          injection hres' with hp
          subst hp
          rw [hfind] at hfind'
          injection hfind' with ha
          exact ⟨rfl, ha⟩
    | none =>
        simp only [hfind, Except.ok.injEq, Prod.mk.injEq] at hstart
        obtain ⟨rfl, rfl⟩ := hstart
        refine ⟨?_, ?_, ?_⟩
        · simp only [at_most_one_active, in_progress_sessions_for]
          intro pid
          rw [List.filter_append]
          by_cases hpid : patient.id = pid
          · subst hpid
            have hnil : db.sessions.filter
                (fun s => s.patient_id == patient.id &&
                  s.status == "in_progress") = [] := by
              rw [List.filter_eq_nil_iff]
              exact List.find?_eq_none.mp hfind
            rw [hnil]
            simp
          · have hone : List.filter
                (fun s => s.patient_id == pid && s.status == "in_progress")
                ([⟨db.next_session_id, patient.id, some [], none, none,
                  "in_progress", t1, none⟩] : List TriageSession) = [] := by
              simp [hpid]
            rw [hone, List.append_nil]
            exact hinv pid
        · unfold start_triage_session
          have hres1 : resolve_patient
              { db with
                sessions := db.sessions ++
                  [⟨db.next_session_id, patient.id, some [], none, none,
                    "in_progress", t1, none⟩],
                next_session_id := db.next_session_id + 1 } u =
              .ok patient := hres
          simp only [hres1]
          rw [find?_append_none hfind]
          simp
        · intro patient' active' hres' hfind'
          injection hres' with hp
          subst hp
          rw [hfind] at hfind'
          exact Option.noConfusion hfind'

/-- Closed instance of `C9_start_session_idempotent`, starting from a
database with no sessions. -/
theorem C9_start_session_idempotent_witness :
    at_most_one_active exDB0 ∧
    start_triage_session exDB0 exUser 7 = .ok (exDBStarted, exStartedSession) ∧
    (at_most_one_active exDBStarted ∧
     start_triage_session exDBStarted exUser 8 =
       .ok (exDBStarted, exStartedSession) ∧
     (∀ patient active, resolve_patient exDB0 exUser = .ok patient →
       exDB0.sessions.find?
           (fun s => s.patient_id == patient.id &&
             s.status == "in_progress") = some active →
       exDBStarted = exDB0 ∧ exStartedSession = active)) :=
  ⟨fun pid => by simp [in_progress_sessions_for, exDB0],
   by decide,
   C9_start_session_idempotent exDB0 exUser 7 8
     (fun pid => by simp [in_progress_sessions_for, exDB0])
     exDBStarted exStartedSession (by decide)⟩

end Triage
